import Mathlib

/-
  Shallow embedding of the RecordingStore state machine of storage.cpp
  (single-spindle, append-only record storage manager).

  Modelling conventions:
  - The medium (SD card filesystem) is a value `FS`: an association list from
    full paths to file contents (lists of bytes, each byte a Nat < 256 by the
    collaborator contract) plus a list of directories.
  - Collaborator primitives that can fail nondeterministically on real
    hardware (mount, mkdir, open, remove, the two sub-writes of write_record)
    are given a Bool oracle parameter; per the collaborator contract these
    primitives are all-or-nothing booleans.
  - Floats are represented by their 32-bit patterns (Nat < 2^32); the raw
    memcpy of a float array to the medium is 4 bytes per float in native
    (little-endian) byte order.
  - uint8_t parameters are reduced mod 256 at function entry.
  - Every operation returns its C++ return value, the updated store, the
    updated filesystem, and a count of medium (collaborator) accesses made.
-/

namespace ECG

/-- The four states of storage.h / storage_state_to_str (storage.cpp:27). -/
inductive StorageState where
  | Idle
  | Error
  | Recording
  | Reading
deriving DecidableEq, Repr

/-- The error taxonomy of storage_error_to_str (storage.cpp:8). -/
inductive StorageError where
  | None
  | CanNotInitialize
  | CanNotOpenFile
  | CanNotRemoveFile
  | FileSystemError
  | TooManyFiles
deriving DecidableEq, Repr

/-- One directory-listing entry (name without extension, size in bytes). -/
structure StorageEntry where
  name : String
  sizeBytes : Nat
deriving DecidableEq, Repr

/-- The open file handle `_current_file`: the path it designates and the
    current read position (writes always append, so only reads track a
    position). `none` models a closed / invalid handle. -/
structure OpenFile where
  path : String
  pos : Nat
deriving DecidableEq, Repr

/-- The fields of the Storage class used by storage.cpp. -/
structure Storage where
  state : StorageState
  error : StorageError
  lastFileIndex : Nat
  currentRecordingName : String
  currentFile : Option OpenFile
deriving DecidableEq, Repr

/-- The medium: files (path, content bytes) and directories. -/
structure FS where
  files : List (String × List Nat)
  dirs : List String
deriving DecidableEq, Repr

/-- Content of the file at `p`, empty if absent. -/
def fsContent (fs : FS) (p : String) : List Nat :=
  (fs.files.lookup p).getD []

/-- SD.exists: true for a file or a directory at that path. -/
def fsExists (fs : FS) (p : String) : Bool :=
  (fs.files.lookup p).isSome || fs.dirs.contains p

/-- Replace (or create) the file at `p` with content `c`. -/
def fsSet (fs : FS) (p : String) (c : List Nat) : FS :=
  { fs with files := (p, c) :: fs.files.filter (fun e => !(e.1 == p)) }

/-- Append bytes to the file at `p` (writes on an open write handle). -/
def fsAppend (fs : FS) (p : String) (bs : List Nat) : FS :=
  fsSet fs p (fsContent fs p ++ bs)

/-- SD.remove. -/
def fsRemove (fs : FS) (p : String) : FS :=
  { fs with files := fs.files.filter (fun e => !(e.1 == p)) }

/-- SD.mkdir. -/
def fsMkdir (fs : FS) (p : String) : FS :=
  { fs with dirs := p :: fs.dirs }

/-- A filesystem holding exactly one file. -/
def fsSingle (p : String) (c : List Nat) : FS :=
  { files := [(p, c)], dirs := ["/recordings"] }

/-- snprintf(recording_name, 6, "%05d", i) for i < 10000: the index as a
    5-digit zero-padded decimal string (storage.cpp:220). -/
def format5 (i : Nat) : String :=
  let s := toString i
  String.mk (List.replicate (5 - s.length) '0') ++ s

/-- build_recording_path (storage.cpp:182). -/
def build_recording_path (name : String) : String :=
  "/recordings/" ++ name ++ ".rec"

/-- Storage::set_error (storage.cpp:115): logs, then sets state to Error and
    records the error code. It does not touch the file handle. -/
def set_error (s : Storage) (e : StorageError) : Storage :=
  { s with state := StorageState.Error, error := e }

/-- Storage::get_error (storage.cpp:121). -/
def get_error (s : Storage) : StorageError :=
  s.error

/-- Storage::is_recording_open (storage.cpp:341). -/
def is_recording_open (s : Storage) : Bool :=
  s.state == StorageState.Recording || s.state == StorageState.Reading

/-- Result of one operation: C++ return value, store, medium, and the number
    of collaborator (medium) calls the operation performed. -/
structure OpResult (α : Type) where
  ret : α
  store : Storage
  fs : FS
  med : Nat
deriving DecidableEq, Repr

/-- Storage::init (storage.cpp:91): SD.begin, ensure /recordings exists,
    then state := Idle. mountOk / mkdirOk are the medium outcomes. -/
def Storage.init (s : Storage) (fs : FS) (mountOk mkdirOk : Bool) : OpResult Bool :=
  if !mountOk then
    { ret := false, store := set_error s StorageError.CanNotInitialize, fs := fs, med := 1 }
  else if fsExists fs "/recordings" then
    { ret := true, store := { s with state := StorageState.Idle }, fs := fs, med := 2 }
  else if mkdirOk then
    { ret := true, store := { s with state := StorageState.Idle },
      fs := fsMkdir fs "/recordings", med := 3 }
  else
    { ret := false, store := set_error s StorageError.FileSystemError, fs := fs, med := 3 }

/-- Storage::clear_error (storage.cpp:125): re-runs init; on success sets
    state := Idle and error := None. There is no state precondition check and
    the current file handle is never touched. -/
def clear_error (s : Storage) (fs : FS) (mountOk mkdirOk : Bool) : OpResult Bool :=
  let r := Storage.init s fs mountOk mkdirOk
  if !r.ret then
    { r with ret := false }
  else
    { r with
      ret := true
      store := { r.store with state := StorageState.Idle, error := StorageError.None } }

/-- Storage::list_recordings (storage.cpp:136): requires Idle; opens the
    /recordings directory (dirOk oracle), iterates its files, and keeps those
    whose full path starts with "/recordings/" and whose name ends with
    case-insensitive ".rec", stripping prefix and extension. -/
def list_recordings (s : Storage) (fs : FS) (dirOk : Bool) : OpResult (List StorageEntry) :=
  if s.state ≠ StorageState.Idle then
    { ret := [], store := s, fs := fs, med := 0 }
  else if !dirOk then
    { ret := [], store := set_error s StorageError.CanNotOpenFile, fs := fs, med := 1 }
  else
    let children := fs.files.filter (fun e => e.1.startsWith "/recordings/")
    let recs := children.filterMap (fun e =>
      let n := (e.1.drop 12)
      if 4 ≤ n.length ∧ (n.drop (n.length - 4)).toLower = ".rec" then
        some { name := n.take (n.length - 4), sizeBytes := e.2.length }
      else
        none)
    { ret := recs, store := s, fs := fs, med := 2 * children.length + 3 }

/-- Storage::remove_recording (storage.cpp:189): requires Idle; if the file
    exists, SD.remove it (removeOk oracle; failure escalates via set_error
    with CanNotRemoveFile); if it does not exist, plain failure. -/
def remove_recording (s : Storage) (fs : FS) (name : String) (removeOk : Bool) :
    OpResult Bool :=
  if s.state ≠ StorageState.Idle then
    { ret := false, store := s, fs := fs, med := 0 }
  else
    let path := build_recording_path name
    if fsExists fs path then
      if removeOk then
        { ret := true, store := s, fs := fsRemove fs path, med := 2 }
      else
        { ret := false, store := set_error s StorageError.CanNotRemoveFile, fs := fs, med := 2 }
    else
      { ret := false, store := s, fs := fs, med := 1 }

/-- The scan loop of create_new_recording (storage.cpp:219): from index `i`
    upward while < 10000, first index whose recording path does not exist.
    Returns the found index (if any) and the number of SD.exists calls.
    Structural on the remaining fuel 10000 - i. -/
def scanFreeAux (fs : FS) : Nat → Nat → Option Nat × Nat
  | 0, _ => (none, 0)
  | fuel + 1, i =>
    if i < 10000 then
      if fsExists fs (build_recording_path (format5 i)) then
        let r := scanFreeAux fs fuel (i + 1)
        (r.1, r.2 + 1)
      else
        (some i, 1)
    else
      (none, 0)

/-- The scan loop entered at index `i`. -/
def scanFree (fs : FS) (i : Nat) : Option Nat × Nat :=
  scanFreeAux fs (10000 - i) i

/-- Storage::create_new_recording (storage.cpp:210): requires Idle; scans for
    the first free index from _last_file_index; none found escalates via
    set_error with TooManyFiles; otherwise records the name, opens the file
    for writing (openOk oracle; failure escalates via set_error with
    CanNotOpenFile, leaving an invalid handle) and on success enters
    Recording and returns the chosen name. -/
def create_new_recording (s : Storage) (fs : FS) (openOk : Bool) :
    OpResult (Option String) :=
  if s.state ≠ StorageState.Idle then
    { ret := none, store := s, fs := fs, med := 0 }
  else
    let scan := scanFree fs s.lastFileIndex
    match scan.1 with
    | none =>
      { ret := none, store := set_error s StorageError.TooManyFiles, fs := fs, med := scan.2 }
    | some i =>
      let name := format5 i
      let path := build_recording_path name
      if !openOk then
        { ret := none
          store := set_error { s with currentRecordingName := name, currentFile := none }
            StorageError.CanNotOpenFile
          fs := fs
          med := scan.2 + 1 }
      else
        { ret := some name
          store := { s with
            state := StorageState.Recording
            currentRecordingName := name
            currentFile := some { path := path, pos := 0 } }
          fs := fsSet fs path []
          med := scan.2 + 1 }

/-- Little-endian 4-byte serialization of a 32-bit float pattern (the raw
    bytes memcpy'd by write_record). -/
def floatToBytes (x : Nat) : List Nat :=
  [x % 256, x / 256 % 256, x / 65536 % 256, x / 16777216 % 256]

/-- Reassemble a 32-bit float pattern from 4 bytes (missing bytes read as 0,
    matching an uninitialized buffer tail modelled as zeros). -/
def bytesToFloat : List Nat → Nat
  | [b0, b1, b2, b3] => b0 + 256 * b1 + 65536 * b2 + 16777216 * b3
  | _ => 0

/-- Group a byte stream into `n` floats of 4 bytes each. -/
def readFloats (bs : List Nat) : Nat → List Nat
  | 0 => []
  | n + 1 => bytesToFloat (bs.take 4) :: readFloats (bs.drop 4) n

/-- Storage::write_record (storage.cpp:254): requires Recording; rejects
    length 0 before any medium access; writes the length byte then the raw
    float bytes (okLen / okData oracles; a failed sub-write escalates via
    set_error with FileSystemError). -/
def write_record (s : Storage) (fs : FS) (data : List Nat) (len : Nat)
    (okLen okData : Bool) : OpResult Bool :=
  if s.state ≠ StorageState.Recording then
    { ret := false, store := s, fs := fs, med := 0 }
  else
    let len := len % 256
    if len = 0 then
      { ret := false, store := s, fs := fs, med := 0 }
    else
      match s.currentFile with
      | none =>
        -- a write on an invalid handle returns 0 bytes
        { ret := false, store := set_error s StorageError.FileSystemError, fs := fs, med := 1 }
      | some f =>
        if !okLen then
          { ret := false, store := set_error s StorageError.FileSystemError, fs := fs, med := 1 }
        else
          let fs1 := fsAppend fs f.path [len]
          if !okData then
            { ret := false, store := set_error s StorageError.FileSystemError, fs := fs1, med := 2 }
          else
            { ret := true
              store := s
              fs := fsAppend fs1 f.path ((data.take len).flatMap floatToBytes)
              med := 2 }

/-- Storage::open_recording (storage.cpp:279): requires Idle; if the path
    does not exist, or exists but the open fails (openOk oracle), plain
    failure with no error escalation; on success enters Reading. -/
def open_recording (s : Storage) (fs : FS) (name : String) (openOk : Bool) :
    OpResult Bool :=
  if s.state ≠ StorageState.Idle then
    { ret := false, store := s, fs := fs, med := 0 }
  else
    let path := build_recording_path name
    if fsExists fs path then
      if openOk then
        { ret := true
          store := { s with
            state := StorageState.Reading
            currentFile := some { path := path, pos := 0 } }
          fs := fs
          med := 2 }
      else
        -- the failed SD.open is still assigned to _current_file
        { ret := false, store := { s with currentFile := none }, fs := fs, med := 2 }
    else
      { ret := false, store := s, fs := fs, med := 1 }

/-- Storage::read_record (storage.cpp:301): requires Reading; peeks the next
    byte (EOF returns 0); a peeked length >= capacity returns the negated
    length without consuming anything; otherwise consumes the length byte
    and reads the payload (a read delivering 0 bytes escalates via set_error
    with FileSystemError and returns 0). Returns the C++ int and the floats
    deposited in the caller's buffer. -/
def read_record (s : Storage) (fs : FS) (cap : Nat) : OpResult (Int × List Nat) :=
  if s.state ≠ StorageState.Reading then
    { ret := (0, []), store := s, fs := fs, med := 0 }
  else
    let cap := cap % 256
    match s.currentFile with
    | none =>
      -- a peek on an invalid handle returns -1
      { ret := (0, []), store := s, fs := fs, med := 1 }
    | some f =>
      let content := fsContent fs f.path
      match content.get? f.pos with
      | none =>
        { ret := (0, []), store := s, fs := fs, med := 1 }
      | some L =>
        if cap ≤ L then
          { ret := (-(L : Int), []), store := s, fs := fs, med := 1 }
        else
          -- the length byte is consumed by _current_file.read()
          let bytesRead := min (4 * L) (content.length - (f.pos + 1))
          if bytesRead = 0 then
            { ret := (0, [])
              store := set_error { s with currentFile := some { f with pos := f.pos + 1 } }
                StorageError.FileSystemError
              fs := fs
              med := 3 }
          else
            { ret := ((L : Int), readFloats ((content.drop (f.pos + 1)).take (4 * L)) L)
              store := { s with currentFile := some { f with pos := f.pos + 1 + bytesRead } }
              fs := fs
              med := 3 }

/-- Storage::close_recording (storage.cpp:345): from Recording, closes the
    file, returns to Idle, increments _last_file_index and clears the
    recording name; from Reading, closes the file and returns to Idle; any
    other state is a plain failure. -/
def close_recording (s : Storage) (fs : FS) : OpResult Bool :=
  match s.state with
  | StorageState.Recording =>
    { ret := true
      store := { s with
        state := StorageState.Idle
        lastFileIndex := s.lastFileIndex + 1
        currentRecordingName := ""
        currentFile := none }
      fs := fs
      med := 1 }
  | StorageState.Reading =>
    { ret := true
      store := { s with state := StorageState.Idle, currentFile := none }
      fs := fs
      med := 1 }
  | _ =>
    { ret := false, store := s, fs := fs, med := 0 }

/-- On-disk encoding of one record (storage.cpp:264 and 270): the length
    byte followed by the raw float bytes. -/
def encodeRecord (r : List Nat) : List Nat :=
  r.length :: r.flatMap floatToBytes

/-- On-disk encoding of a sequence of records. -/
def encodeRecords (rs : List (List Nat)) : List Nat :=
  rs.flatMap encodeRecord

/-- Write each record in order with one write_record call per record, every
    medium write succeeding; collects the returned Booleans. -/
def writeSteps : List (List Nat) → Storage → FS → List Bool × Storage × FS
  | [], s, fs => ([], s, fs)
  | r :: rest, s, fs =>
    let w := write_record s fs r r.length true true
    let t := writeSteps rest w.store w.fs
    (w.ret :: t.1, t.2)

/-- Perform `n` read_record calls with capacity `cap`, collecting each call's
    returned (count, buffer) pair. -/
def readSteps : Nat → Storage → FS → Nat → List (Int × List Nat) × Storage × FS
  | 0, s, fs, _ => ([], s, fs)
  | n + 1, s, fs, cap =>
    let r := read_record s fs cap
    let t := readSteps n r.store r.fs cap
    (r.ret :: t.1, t.2)

/-- One invocation of any public operation of the store, with its arguments
    and medium-outcome oracles. -/
inductive Op where
  | clearError (mountOk mkdirOk : Bool)
  | listRecordings (dirOk : Bool)
  | removeRecording (name : String) (removeOk : Bool)
  | createNewRecording (openOk : Bool)
  | writeRecord (data : List Nat) (len : Nat) (okLen okData : Bool)
  | openRecording (name : String) (openOk : Bool)
  | readRecord (cap : Nat)
  | closeRecording
  | getError
  | isRecordingOpen

/-- The store resulting from one public operation. -/
def stepStore (op : Op) (s : Storage) (fs : FS) : Storage :=
  match op with
  | Op.clearError mountOk mkdirOk => (clear_error s fs mountOk mkdirOk).store
  | Op.listRecordings dirOk => (list_recordings s fs dirOk).store
  | Op.removeRecording name removeOk => (remove_recording s fs name removeOk).store
  | Op.createNewRecording openOk => (create_new_recording s fs openOk).store
  | Op.writeRecord data len okLen okData => (write_record s fs data len okLen okData).store
  | Op.openRecording name openOk => (open_recording s fs name openOk).store
  | Op.readRecord cap => (read_record s fs cap).store
  | Op.closeRecording => (close_recording s fs).store
  | Op.getError => s
  | Op.isRecordingOpen => s

/-- The invariant relating the handle and the state, in the direction the
    code maintains: in Recording or Reading the handle is open. -/
def handleInv (s : Storage) : Prop :=
  (s.state = StorageState.Recording ∨ s.state = StorageState.Reading) →
    s.currentFile.isSome = true

/-- A store freshly initialized and idle. -/
def idleStore : Storage :=
  { state := StorageState.Idle
    error := StorageError.None
    lastFileIndex := 0
    currentRecordingName := ""
    currentFile := none }

/-- A store stuck in the sticky Error state. -/
def errStore : Storage :=
  { idleStore with state := StorageState.Error, error := StorageError.CanNotInitialize }

/-- A store mid-recording on file 00000. -/
def recStoreFix : Storage :=
  { idleStore with
    state := StorageState.Recording
    currentRecordingName := "00000"
    currentFile := some { path := "/recordings/00000.rec", pos := 0 } }

/-- A store mid-playback on file 00000. -/
def readStoreFix : Storage :=
  { idleStore with
    state := StorageState.Reading
    currentFile := some { path := "/recordings/00000.rec", pos := 0 } }

/-- An empty recordings directory. -/
def emptyFS : FS :=
  { files := [], dirs := ["/recordings"] }

/-- A medium holding one recording 00000 with the given bytes. -/
def fsOne (c : List Nat) : FS :=
  { files := [("/recordings/00000.rec", c)], dirs := ["/recordings"] }

/-- An idle store whose scan cursor has reached the last index. -/
def idle9999 : Storage :=
  { idleStore with lastFileIndex := 9999 }

/-- A medium where index 9999 (the only index the scan will probe from
    cursor 9999) is already taken. -/
def fs9999 : FS :=
  { files := [("/recordings/09999.rec", [])], dirs := ["/recordings"] }

/-- A medium where indices 3 and 4 are taken, so the first gap at or above
    cursor 3 is index 5. -/
def fs34 : FS :=
  { files := [("/recordings/00003.rec", []), ("/recordings/00004.rec", [])]
    dirs := ["/recordings"] }

/-- C9: a write_record call in Recording state with length 0 fails
    immediately: no medium access, no change to the store (state and error
    untouched) and none to the medium. -/
theorem c9_zero_length_write (s : Storage) (fs : FS) (data : List Nat)
    (okLen okData : Bool) (hs : s.state = StorageState.Recording) :
    write_record s fs data 0 okLen okData =
      { ret := false, store := s, fs := fs, med := 0 } := by
  simp [write_record, hs]

/-- Witness for c9_zero_length_write at a concrete recording store. -/
theorem c9_zero_length_write_witness :
    write_record recStoreFix emptyFS [5, 6, 7] 0 true true =
      { ret := false, store := recStoreFix, fs := emptyFS, med := 0 } :=
  c9_zero_length_write recStoreFix emptyFS [5, 6, 7] true true (by decide)

/-- C5: open_recording in Idle state fails without escalation both when the
    recording does not exist and when it exists but the open fails: the
    return value is false, the state stays Idle, the error is unchanged and
    the medium is unchanged. -/
theorem c5_open_failures_no_escalation (s : Storage) (fs : FS) (name : String)
    (openOk : Bool) (hs : s.state = StorageState.Idle)
    (h : fsExists fs (build_recording_path name) = false ∨ openOk = false) :
    (open_recording s fs name openOk).ret = false ∧
    (open_recording s fs name openOk).store.state = StorageState.Idle ∧
    (open_recording s fs name openOk).store.error = s.error ∧
    (open_recording s fs name openOk).fs = fs := by
  rcases h with h | h
  · simp [open_recording, hs, h]
  · subst h
    by_cases hex : fsExists fs (build_recording_path name) = true
    · simp [open_recording, hs, hex]
    · simp [open_recording, hs, Bool.not_eq_true _ ▸ hex]

/-- Witness for c5_open_failures_no_escalation: opening a missing name. -/
theorem c5_open_failures_no_escalation_witness :
    (open_recording idleStore emptyFS "missing" true).ret = false ∧
    (open_recording idleStore emptyFS "missing" true).store.state = StorageState.Idle ∧
    (open_recording idleStore emptyFS "missing" true).store.error = idleStore.error ∧
    (open_recording idleStore emptyFS "missing" true).fs = emptyFS :=
  c5_open_failures_no_escalation idleStore emptyFS "missing" true (by decide)
    (Or.inl (by decide))

/-- C10: remove_recording in Idle state on a missing file is a plain failure
    with the store and medium untouched; the CanNotRemoveFile escalation to
    the Error state happens exactly when the file exists and the medium
    removal fails. -/
theorem c10_remove_missing_no_escalation (s : Storage) (fs : FS) (name : String)
    (removeOk : Bool) (hs : s.state = StorageState.Idle) :
    (fsExists fs (build_recording_path name) = false →
      remove_recording s fs name removeOk =
        { ret := false, store := s, fs := fs, med := 1 }) ∧
    ((remove_recording s fs name removeOk).store.state = StorageState.Error →
      fsExists fs (build_recording_path name) = true ∧ removeOk = false ∧
      (remove_recording s fs name removeOk).store.error = StorageError.CanNotRemoveFile) ∧
    (fsExists fs (build_recording_path name) = true → removeOk = false →
      (remove_recording s fs name removeOk).ret = false ∧
      (remove_recording s fs name removeOk).store = set_error s StorageError.CanNotRemoveFile) := by
  refine ⟨fun hex => ?_, fun herr => ?_, fun hex hok => ?_⟩
  · simp [remove_recording, hs, hex]
  · by_cases hex : fsExists fs (build_recording_path name) = true
    · by_cases hok : removeOk = true
      · simp [remove_recording, hs, hex, hok] at herr
      · simp only [Bool.not_eq_true] at hok
        simp [remove_recording, hs, hex, hok, set_error]
    · simp only [Bool.not_eq_true] at hex
      simp [remove_recording, hs, hex] at herr
  · simp [remove_recording, hs, hex, hok]

lemma set_error_lastFileIndex (s : Storage) (e : StorageError) :
    (set_error s e).lastFileIndex = s.lastFileIndex := rfl

lemma init_lastFileIndex (s : Storage) (fs : FS) (mountOk mkdirOk : Bool) :
    (Storage.init s fs mountOk mkdirOk).store.lastFileIndex = s.lastFileIndex := by
  simp only [Storage.init]
  split <;> try rfl
  split <;> try rfl
  split <;> rfl

lemma clear_error_lastFileIndex (s : Storage) (fs : FS) (mountOk mkdirOk : Bool) :
    (clear_error s fs mountOk mkdirOk).store.lastFileIndex = s.lastFileIndex := by
  simp only [clear_error]
  split
  · exact init_lastFileIndex s fs mountOk mkdirOk
  · exact init_lastFileIndex s fs mountOk mkdirOk

/-- No operation ever decreases the file-sequence cursor; close_recording
    from Recording is the only operation that changes it, by +1. -/
lemma stepStore_lastFileIndex_mono (op : Op) (s : Storage) (fs : FS) :
    s.lastFileIndex ≤ (stepStore op s fs).lastFileIndex := by
  cases op with
  | clearError mountOk mkdirOk =>
    simp [stepStore, clear_error_lastFileIndex]
  | listRecordings dirOk =>
    simp only [stepStore, list_recordings]
    split <;> [skip; split] <;> simp [set_error]
  | removeRecording name removeOk =>
    simp only [stepStore, remove_recording]
    (repeat' split) <;> simp [set_error]
  | createNewRecording openOk =>
    simp only [stepStore, create_new_recording]
    (repeat' split) <;> simp [set_error]
  | writeRecord data len okLen okData =>
    simp only [stepStore, write_record]
    (repeat' split) <;> simp [set_error]
  | openRecording name openOk =>
    simp only [stepStore, open_recording]
    (repeat' split) <;> simp [set_error]
  | readRecord cap =>
    simp only [stepStore, read_record]
    (repeat' split) <;> simp [set_error]
  | closeRecording =>
    simp only [stepStore, close_recording]
    (repeat' split) <;> simp
  | getError => simp [stepStore]
  | isRecordingOpen => simp [stepStore]

/-- C7: a successful close_recording from Recording returns to Idle with the
    cursor advanced by exactly one and the recording name cleared; from
    Reading it returns to Idle leaving the cursor untouched; and no public
    operation ever decrements the cursor. -/
theorem c7_close_recording_cursor (s : Storage) (fs : FS) :
    (s.state = StorageState.Recording →
      close_recording s fs =
        { ret := true
          store := { s with
            state := StorageState.Idle
            lastFileIndex := s.lastFileIndex + 1
            currentRecordingName := ""
            currentFile := none }
          fs := fs
          med := 1 }) ∧
    (s.state = StorageState.Reading →
      close_recording s fs =
        { ret := true
          store := { s with state := StorageState.Idle, currentFile := none }
          fs := fs
          med := 1 }) ∧
    (∀ op : Op, s.lastFileIndex ≤ (stepStore op s fs).lastFileIndex) := by
  refine ⟨fun h => ?_, fun h => ?_, fun op => stepStore_lastFileIndex_mono op s fs⟩
  · simp [close_recording, h]
  · simp [close_recording, h]

/-- Witness for c7_close_recording_cursor: closing a concrete recording
    advances the cursor from 0 to 1 and clears the name. -/
theorem c7_close_recording_cursor_witness :
    close_recording recStoreFix emptyFS =
      { ret := true
        store := { recStoreFix with
          state := StorageState.Idle
          lastFileIndex := 1
          currentRecordingName := ""
          currentFile := none }
        fs := emptyFS
        med := 1 } :=
  (c7_close_recording_cursor recStoreFix emptyFS).1 (by decide)

lemma set_error_currentFile (s : Storage) (e : StorageError) :
    (set_error s e).currentFile = s.currentFile := rfl

lemma init_store (s : Storage) (fs : FS) (mountOk mkdirOk : Bool) :
    (Storage.init s fs mountOk mkdirOk).store.currentFile = s.currentFile ∧
    ((Storage.init s fs mountOk mkdirOk).store.state = StorageState.Idle ∨
      (Storage.init s fs mountOk mkdirOk).store.state = StorageState.Error) := by
  simp only [Storage.init]
  split <;> [skip; split] <;> [skip; skip; split] <;> simp [set_error]

/-- Every public operation preserves the one-directional handle invariant:
    whenever the state is Recording or Reading, the handle is open. -/
lemma stepStore_handleInv (op : Op) (s : Storage) (fs : FS) (h : handleInv s) :
    handleInv (stepStore op s fs) := by
  cases op with
  | clearError mountOk mkdirOk =>
    intro hstate
    simp only [stepStore, clear_error] at hstate ⊢
    rcases init_store s fs mountOk mkdirOk with ⟨_, hst | hst⟩ <;>
      split at hstate <;> simp_all
  | listRecordings dirOk =>
    simp only [stepStore, list_recordings]
    (repeat' split) <;> simp_all [set_error, handleInv]
  | removeRecording name removeOk =>
    simp only [stepStore, remove_recording]
    (repeat' split) <;> simp_all [set_error, handleInv]
  | createNewRecording openOk =>
    simp only [stepStore, create_new_recording]
    (repeat' split) <;> simp_all [set_error, handleInv]
  | writeRecord data len okLen okData =>
    simp only [stepStore, write_record]
    (repeat' split) <;> simp_all [set_error, handleInv]
  | openRecording name openOk =>
    simp only [stepStore, open_recording]
    (repeat' split) <;> simp_all [set_error, handleInv]
  | readRecord cap =>
    simp only [stepStore, read_record]
    (repeat' split) <;> simp_all [set_error, handleInv]
  | closeRecording =>
    simp only [stepStore, close_recording]
    (repeat' split) <;> simp_all [handleInv]
  | getError => exact h
  | isRecordingOpen => exact h

/-- C3 counterexample: in a Recording store (where the claimed iff-invariant
    holds), clear_error with a successful re-init moves the state to Idle
    without closing the handle, so afterwards the handle is open while the
    state is outside Recording and Reading: the iff-invariant is not
    preserved by clear_error called in a non-Error state. -/
theorem c3_counterexample :
    (((recStoreFix.state = StorageState.Recording ∨
        recStoreFix.state = StorageState.Reading) ↔
      recStoreFix.currentFile.isSome = true)) ∧
    (clear_error recStoreFix emptyFS true true).ret = true ∧
    (clear_error recStoreFix emptyFS true true).store.state = StorageState.Idle ∧
    (clear_error recStoreFix emptyFS true true).store.currentFile.isSome = true ∧
    ¬((((clear_error recStoreFix emptyFS true true).store.state = StorageState.Recording ∨
        (clear_error recStoreFix emptyFS true true).store.state = StorageState.Reading) ↔
      (clear_error recStoreFix emptyFS true true).store.currentFile.isSome = true)) := by
  decide

/-- C3 amended: the invariant holds in the direction the code maintains:
    every public operation (clear_error in any state included) preserves
    "currentFile is open whenever state is Recording or Reading", and
    close_recording, the one operation that leaves Recording or Reading
    normally, closes and invalidates the handle on that transition; but the
    converse direction of the iff is not preserved, because clear_error
    called outside Error and the set_error escalations leave the handle open
    with the state outside Recording and Reading. -/
theorem c3_amended_handle_invariant :
    (∀ (op : Op) (s : Storage) (fs : FS), handleInv s → handleInv (stepStore op s fs)) ∧
    (∀ (s : Storage) (fs : FS),
      s.state = StorageState.Recording ∨ s.state = StorageState.Reading →
      (close_recording s fs).ret = true ∧
      (close_recording s fs).store.currentFile = none ∧
      (close_recording s fs).store.state = StorageState.Idle) := by
  refine ⟨stepStore_handleInv, fun s fs h => ?_⟩
  rcases h with h | h <;> simp [close_recording, h]

/-- Witness for c3_amended_handle_invariant at a concrete operation and
    store: writing in a Recording store keeps the handle invariant, and
    closing from Reading closes the handle. -/
theorem c3_amended_handle_invariant_witness :
    handleInv (stepStore (Op.writeRecord [5] 1 true true) recStoreFix emptyFS) ∧
    (close_recording readStoreFix emptyFS).ret = true ∧
    (close_recording readStoreFix emptyFS).store.currentFile = none ∧
    (close_recording readStoreFix emptyFS).store.state = StorageState.Idle :=
  ⟨c3_amended_handle_invariant.1 (Op.writeRecord [5] 1 true true) recStoreFix emptyFS
      (fun _ => by decide),
    c3_amended_handle_invariant.2 readStoreFix emptyFS (Or.inr (by decide))⟩

/-- If every index probed by the scan is occupied, the scan finds nothing. -/
lemma scanFreeAux_all_occupied (fs : FS) (fuel j : Nat)
    (h : ∀ k, j ≤ k → k < 10000 →
      fsExists fs (build_recording_path (format5 k)) = true) :
    (scanFreeAux fs fuel j).1 = none := by
  induction fuel generalizing j with
  | zero => rfl
  | succ fuel ih =>
    simp only [scanFreeAux]
    split
    · rw [h j (Nat.le_refl j) (by assumption)]
      simp only []
      exact ih (j + 1) (fun k hk hk' => h k (by omega) hk')
    · rfl

/-- The scan started at `j` returns the least free index at or above `j`. -/
lemma scanFreeAux_finds (fs : FS) (fuel j i : Nat)
    (hji : j ≤ i) (hi : i < 10000) (hfuel : i - j < fuel)
    (hfree : fsExists fs (build_recording_path (format5 i)) = false)
    (hocc : ∀ k, j ≤ k → k < i →
      fsExists fs (build_recording_path (format5 k)) = true) :
    (scanFreeAux fs fuel j).1 = some i := by
  induction fuel generalizing j with
  | zero => omega
  | succ fuel ih =>
    simp only [scanFreeAux]
    rw [if_pos (by omega)]
    by_cases hji' : j = i
    · subst hji'
      rw [hfree]
      simp
    · rw [hocc j (Nat.le_refl j) (by omega)]
      simp only []
      exact ih (j + 1) (by omega) (by omega) (fun k hk hk' => hocc k (by omega) hk')

/-- C2 counterexample: with the cursor at 9999 and index 9999 taken, the
    scan finds no free index, the call fails with error TooManyFiles, and
    the state does not stay Idle: set_error moves it to Error. -/
theorem c2_counterexample :
    (create_new_recording idle9999 fs9999 true).ret = none ∧
    (create_new_recording idle9999 fs9999 true).store.error = StorageError.TooManyFiles ∧
    (create_new_recording idle9999 fs9999 true).store.state = StorageState.Error ∧
    ¬(create_new_recording idle9999 fs9999 true).store.state = StorageState.Idle := by
  decide

/-- C2 amended: when create_new_recording is called in Idle state and every
    index from the cursor up to 9999 already exists, it fails with error
    TooManyFiles and the store escalates to the Error state via set_error
    (not remaining Idle); the other store fields and the medium are
    unchanged. -/
theorem c2_too_many_files_escalates (s : Storage) (fs : FS) (openOk : Bool)
    (hs : s.state = StorageState.Idle)
    (hall : ∀ k, s.lastFileIndex ≤ k → k < 10000 →
      fsExists fs (build_recording_path (format5 k)) = true) :
    (create_new_recording s fs openOk).ret = none ∧
    (create_new_recording s fs openOk).store = set_error s StorageError.TooManyFiles ∧
    (create_new_recording s fs openOk).fs = fs := by
  have hscan : (scanFree fs s.lastFileIndex).1 = none :=
    scanFreeAux_all_occupied fs _ _ hall
  simp only [create_new_recording, hs]
  rw [if_neg (by simp)]
  simp [hscan]

/-- Witness for c2_too_many_files_escalates at the concrete cursor-9999
    store. -/
theorem c2_too_many_files_escalates_witness :
    (create_new_recording idle9999 fs9999 false).ret = none ∧
    (create_new_recording idle9999 fs9999 false).store =
      set_error idle9999 StorageError.TooManyFiles ∧
    (create_new_recording idle9999 fs9999 false).fs = fs9999 :=
  c2_too_many_files_escalates idle9999 fs9999 false (by decide)
    (fun k hk hk' => by
      have : k = 9999 := by
        have : 9999 ≤ k := hk
        omega
      subst this
      decide)

/-- C8: create_new_recording in Idle state selects the least index at or
    above the cursor whose recording file does not exist (the first gap from
    the cursor), and on a successful open returns that index as a 5-digit
    zero-padded name, enters Recording, and records that name. -/
theorem c8_first_free_selected (s : Storage) (fs : FS) (i : Nat)
    (hs : s.state = StorageState.Idle)
    (hji : s.lastFileIndex ≤ i) (hi : i < 10000)
    (hfree : fsExists fs (build_recording_path (format5 i)) = false)
    (hocc : ∀ k, s.lastFileIndex ≤ k → k < i →
      fsExists fs (build_recording_path (format5 k)) = true) :
    (create_new_recording s fs true).ret = some (format5 i) ∧
    (create_new_recording s fs true).store.state = StorageState.Recording ∧
    (create_new_recording s fs true).store.currentRecordingName = format5 i ∧
    (create_new_recording s fs true).store.currentFile =
      some { path := build_recording_path (format5 i), pos := 0 } := by
  have hscan : (scanFree fs s.lastFileIndex).1 = some i :=
    scanFreeAux_finds fs _ _ i hji hi (by omega) hfree hocc
  simp only [create_new_recording, hs]
  rw [if_neg (by simp)]
  simp [hscan]

/-- Witness for c8_first_free_selected: with 00003 and 00004 taken and the
    cursor at 3, index 5 is chosen. -/
theorem c8_first_free_selected_witness :
    (create_new_recording { idleStore with lastFileIndex := 3 } fs34 true).ret =
      some (format5 5) ∧
    (create_new_recording { idleStore with lastFileIndex := 3 } fs34 true).store.state =
      StorageState.Recording ∧
    (create_new_recording { idleStore with lastFileIndex := 3 } fs34 true).store.currentRecordingName =
      format5 5 ∧
    (create_new_recording { idleStore with lastFileIndex := 3 } fs34 true).store.currentFile =
      some { path := build_recording_path (format5 5), pos := 0 } :=
  c8_first_free_selected { idleStore with lastFileIndex := 3 } fs34 5 (by decide)
    (by decide) (by decide) (by decide)
    (fun k hk hk' => by
      interval_cases k
      · decide
      · decide)

/-- C4 counterexample: on a pending record of length L = 1, read_record with
    capacity 1 returns -1 without consuming anything, but a retry with
    capacity 1 — which satisfies the claimed "capacity ≥ L" — returns -1
    again instead of succeeding with L, because the code requires the
    capacity to be strictly greater than L. -/
theorem c4_counterexample :
    (read_record readStoreFix (fsOne [1, 9, 0, 0, 0]) 1).ret = (-1, []) ∧
    (read_record readStoreFix (fsOne [1, 9, 0, 0, 0]) 1).store = readStoreFix ∧
    (read_record readStoreFix (fsOne [1, 9, 0, 0, 0]) 1).fs = fsOne [1, 9, 0, 0, 0] ∧
    ¬(read_record (read_record readStoreFix (fsOne [1, 9, 0, 0, 0]) 1).store
        (read_record readStoreFix (fsOne [1, 9, 0, 0, 0]) 1).fs 1).ret.1 = 1 := by
  decide

/-- C4 amended: with a complete pending record of length L (1 ≤ L ≤ 255) at
    the stream position, a read_record call with capacity ≤ L returns -L and
    leaves the store and medium (hence the stream position) unchanged, and a
    retry with capacity strictly greater than L (not merely ≥ L) succeeds
    and returns L. -/
theorem c4_buffer_too_small_retry (s : Storage) (fs : FS) (p : String)
    (pos L cap cap2 : Nat)
    (hs : s.state = StorageState.Reading)
    (hf : s.currentFile = some { path := p, pos := pos })
    (hL : (fsContent fs p).get? pos = some L)
    (hL1 : 1 ≤ L) (hL255 : L ≤ 255)
    (hcap : cap ≤ L)
    (hcap2 : L < cap2) (hcap2' : cap2 ≤ 255)
    (havail : pos + 1 + 4 * L ≤ (fsContent fs p).length) :
    read_record s fs cap = { ret := (-(L : Int), []), store := s, fs := fs, med := 1 } ∧
    (read_record s fs cap2).ret.1 = (L : Int) := by
  have hget : (fsContent fs p)[pos]? = some L := by
    rw [← List.get?_eq_getElem?]
    exact hL
  constructor
  · simp [read_record, hs, hf, hget, Nat.mod_eq_of_lt (show cap < 256 by omega), hcap]
  · have h2 : cap2 % 256 = cap2 := Nat.mod_eq_of_lt (by omega)
    have hmin : min (4 * L) ((fsContent fs p).length - (pos + 1)) = 4 * L :=
      min_eq_left (by omega)
    simp [read_record, hs, hf, hget, h2, Nat.not_le.mpr hcap2, hmin,
      show L ≠ 0 by omega]

/-- Witness for c4_buffer_too_small_retry at the concrete one-float record:
    capacity 1 yields -1 with everything unchanged, capacity 2 yields 1. -/
theorem c4_buffer_too_small_retry_witness :
    read_record readStoreFix (fsOne [1, 9, 0, 0, 0]) 1 =
      { ret := (-1, []), store := readStoreFix, fs := fsOne [1, 9, 0, 0, 0], med := 1 } ∧
    (read_record readStoreFix (fsOne [1, 9, 0, 0, 0]) 2).ret.1 = 1 :=
  c4_buffer_too_small_retry readStoreFix (fsOne [1, 9, 0, 0, 0])
    "/recordings/00000.rec" 0 1 1 2 (by decide) (by decide) (by decide) (by decide)
    (by decide) (by decide) (by decide) (by decide) (by decide)

lemma floatToBytes_length (x : Nat) : (floatToBytes x).length = 4 := rfl

lemma flatMap_floatToBytes_length (r : List Nat) :
    (r.flatMap floatToBytes).length = 4 * r.length := by
  induction r with
  | nil => rfl
  | cons a r ih =>
    simp only [List.flatMap_cons, List.length_append, floatToBytes_length, ih,
      List.length_cons]
    omega

lemma bytesToFloat_floatToBytes (x : Nat) (hx : x < 4294967296) :
    bytesToFloat (floatToBytes x) = x := by
  simp only [floatToBytes, bytesToFloat]
  omega

lemma readFloats_encoded (r rest : List Nat) (hx : ∀ x ∈ r, x < 4294967296) :
    readFloats (r.flatMap floatToBytes ++ rest) r.length = r := by
  induction r with
  | nil => rfl
  | cons a r ih =>
    simp only [List.flatMap_cons, List.append_assoc, List.length_cons, readFloats]
    rw [show (4 : Nat) = (floatToBytes a).length from rfl, List.take_left, List.drop_left]
    rw [bytesToFloat_floatToBytes a (hx a (List.mem_cons_self a r))]
    rw [ih (fun x h => hx x (List.mem_cons_of_mem a h))]

lemma readFloats_exact (r : List Nat) (hx : ∀ x ∈ r, x < 4294967296) :
    readFloats (r.flatMap floatToBytes) r.length = r := by
  have h := readFloats_encoded r [] hx
  simpa using h

lemma fsContent_fsSet (fs : FS) (p : String) (c : List Nat) :
    fsContent (fsSet fs p c) p = c := by
  simp [fsContent, fsSet, List.lookup]

lemma fsSet_fsSet (fs : FS) (p : String) (a b : List Nat) :
    fsSet (fsSet fs p a) p b = fsSet fs p b := by
  simp [fsSet, List.filter_filter]

lemma fsContent_fsSingle (p : String) (c : List Nat) :
    fsContent (fsSingle p c) p = c := by
  simp [fsContent, fsSingle, List.lookup]

/-- One successful write_record call in Recording state appends exactly the
    encoding of the record to the open file and changes nothing else. -/
lemma write_record_success (s : Storage) (fs : FS) (r : List Nat) (p : String)
    (pos : Nat)
    (hs : s.state = StorageState.Recording)
    (hf : s.currentFile = some { path := p, pos := pos })
    (h1 : 1 ≤ r.length) (h255 : r.length ≤ 255) :
    write_record s fs r r.length true true =
      { ret := true
        store := s
        fs := fsSet fs p (fsContent fs p ++ encodeRecord r)
        med := 2 } := by
  have hmod : r.length % 256 = r.length := Nat.mod_eq_of_lt (by omega)
  simp [write_record, hs, hf, hmod, show r.length ≠ 0 by omega, fsAppend,
    fsContent_fsSet, fsSet_fsSet, encodeRecord, List.take_length]

/-- Writing a sequence of valid records succeeds call by call and appends
    the concatenated record encodings to the open file. -/
lemma writeSteps_spec (recs : List (List Nat)) (s : Storage) (fs : FS)
    (p : String) (pos : Nat)
    (hs : s.state = StorageState.Recording)
    (hf : s.currentFile = some { path := p, pos := pos })
    (hlen : ∀ r ∈ recs, 1 ≤ r.length ∧ r.length ≤ 255) :
    (writeSteps recs s fs).1 = List.replicate recs.length true ∧
    (writeSteps recs s fs).2.1 = s ∧
    fsContent (writeSteps recs s fs).2.2 p = fsContent fs p ++ encodeRecords recs := by
  induction recs generalizing fs with
  | nil => simp [writeSteps, encodeRecords]
  | cons r rest ih =>
    obtain ⟨h1, h255⟩ := hlen r (List.mem_cons_self r rest)
    have hw := write_record_success s fs r p pos hs hf h1 h255
    have ihh := ih (fsSet fs p (fsContent fs p ++ encodeRecord r))
      (fun q hq => hlen q (List.mem_cons_of_mem r hq))
    simp only [writeSteps, hw]
    refine ⟨?_, ihh.2.1, ?_⟩
    · simp [ihh.1, List.replicate_succ]
    · rw [ihh.2.2, fsContent_fsSet]
      simp [encodeRecords, List.append_assoc]

lemma store_eta (s : Storage) (v : Option OpenFile) (h : s.currentFile = v) :
    { s with currentFile := v } = s := by
  subst h
  rfl

lemma readSteps_succ (n : Nat) (s : Storage) (fs : FS) (cap : Nat) :
    readSteps (n + 1) s fs cap =
      ((read_record s fs cap).ret ::
        (readSteps n (read_record s fs cap).store (read_record s fs cap).fs cap).1,
        (readSteps n (read_record s fs cap).store (read_record s fs cap).fs cap).2) := rfl

lemma store_eta2 (s : Storage) (st : StorageState) (v : Option OpenFile)
    (hst : s.state = st) (h : s.currentFile = v) :
    Storage.mk st s.error s.lastFileIndex s.currentRecordingName v = s := by
  subst hst
  subst h
  rfl

/-- One read_record call on a complete pending record with a strictly larger
    capacity consumes exactly that record, returns its count and values, and
    advances the position past it. -/
lemma read_record_success (s : Storage) (fs : FS) (p : String) (pos : Nat)
    (r rest : List Nat) (cap : Nat)
    (hs : s.state = StorageState.Reading)
    (hf : s.currentFile = some { path := p, pos := pos })
    (hdrop : (fsContent fs p).drop pos = encodeRecord r ++ rest)
    (h1 : 1 ≤ r.length) (h255 : r.length ≤ 255)
    (hx : ∀ x ∈ r, x < 4294967296)
    (hcap : r.length < cap) (hcap2 : cap ≤ 255) :
    read_record s fs cap =
      { ret := ((r.length : Int), r)
        store := { s with currentFile := some { path := p, pos := pos + 1 + 4 * r.length } }
        fs := fs
        med := 3 } := by
  have hget : (fsContent fs p)[pos]? = some r.length := by
    have h := List.get?_drop (fsContent fs p) pos 0
    rw [hdrop] at h
    simp only [encodeRecord, List.cons_append, List.get?] at h
    rw [← List.get?_eq_getElem?]
    simpa using h.symm
  have hdlen : (fsContent fs p).length - (pos + 1) = 4 * r.length + rest.length := by
    have hl := congrArg List.length hdrop
    simp only [List.length_drop, List.length_append, encodeRecord, List.length_cons,
      flatMap_floatToBytes_length] at hl
    have hpos : pos < (fsContent fs p).length := by
      by_contra hc
      push_neg at hc
      omega
    omega
  have hmin : min (4 * r.length) ((fsContent fs p).length - (pos + 1)) = 4 * r.length := by
    rw [hdlen]
    exact min_eq_left (by omega)
  have hdrop1 : (fsContent fs p).drop (pos + 1) = r.flatMap floatToBytes ++ rest := by
    have h := congrArg (List.drop 1) hdrop
    rw [List.drop_drop] at h
    simpa [encodeRecord] using h
  have htake : ((fsContent fs p).drop (pos + 1)).take (4 * r.length) =
      r.flatMap floatToBytes := by
    rw [hdrop1, ← flatMap_floatToBytes_length r, List.take_left]
  have hmod : cap % 256 = cap := Nat.mod_eq_of_lt (by omega)
  simp [read_record, hs, hf, hget, hmod, Nat.not_le.mpr hcap, hmin,
    show r.length ≠ 0 by omega, htake, readFloats_exact r hx]

/-- Reading back a stream that is exactly the encoding of a record sequence
    returns, call by call, each record's count and values, then one 0 for
    the end of the stream, leaving state and error untouched and the
    position at the end of the file. -/
lemma readSteps_spec (recs : List (List Nat)) (s : Storage) (fs : FS)
    (p : String) (pos cap : Nat)
    (hs : s.state = StorageState.Reading)
    (hf : s.currentFile = some { path := p, pos := pos })
    (hrec : ∀ r ∈ recs, 1 ≤ r.length ∧ r.length ≤ 255 ∧ ∀ x ∈ r, x < 4294967296)
    (hcap : ∀ r ∈ recs, r.length < cap) (hcap2 : cap ≤ 255)
    (hcontent : (fsContent fs p).drop pos = encodeRecords recs) :
    readSteps (recs.length + 1) s fs cap =
      (recs.map (fun r => ((r.length : Int), r)) ++ [((0 : Int), ([] : List Nat))],
        { s with currentFile := some { path := p, pos := pos + (encodeRecords recs).length } },
        fs) := by
  induction recs generalizing s pos with
  | nil =>
    have hget : (fsContent fs p).get? pos = none := by
      have h := List.get?_drop (fsContent fs p) pos 0
      rw [hcontent] at h
      simpa [encodeRecords] using h.symm
    have hmod : cap % 256 = cap := Nat.mod_eq_of_lt (by omega)
    simp only [List.length_nil, readSteps, read_record, hs, hf]
    rw [if_neg (by simp)]
    simp only [hmod, hget]
    simp only [encodeRecords, List.flatMap_nil, List.length_nil, Nat.add_zero,
      List.map_nil, List.nil_append]
    rw [store_eta2 s _ _ hs hf]
  | cons r rest ih =>
    obtain ⟨h1, h255, hx⟩ := hrec r (List.mem_cons_self r rest)
    have hd : (fsContent fs p).drop pos = encodeRecord r ++ encodeRecords rest := by
      rw [hcontent]
      simp [encodeRecords]
    have hstep := read_record_success s fs p pos r (encodeRecords rest) cap hs hf hd
      h1 h255 hx (hcap r (List.mem_cons_self r rest)) hcap2
    have hcontent' :
        (fsContent fs p).drop (pos + 1 + 4 * r.length) = encodeRecords rest := by
      have hlenr : (encodeRecord r).length = 1 + 4 * r.length := by
        simp only [encodeRecord, List.length_cons, flatMap_floatToBytes_length]
        omega
      have h := congrArg (List.drop (encodeRecord r).length) hd
      rw [List.drop_drop, List.drop_left] at h
      rw [show pos + 1 + 4 * r.length = pos + (encodeRecord r).length by
        rw [hlenr]; omega]
      exact h
    have ihh := ih { s with currentFile := some { path := p, pos := pos + 1 + 4 * r.length } }
      (pos + 1 + 4 * r.length) (by simp [hs])
      rfl (fun q hq => hrec q (List.mem_cons_of_mem r hq))
      (fun q hq => hcap q (List.mem_cons_of_mem r hq)) hcontent'
    have harith : pos + 1 + 4 * r.length + (encodeRecords rest).length =
        pos + (encodeRecords (r :: rest)).length := by
      simp only [encodeRecords, List.flatMap_cons, List.length_append, encodeRecord,
        List.length_cons, flatMap_floatToBytes_length]
      omega
    rw [List.length_cons, readSteps_succ, hstep]
    dsimp only
    rw [ihh]
    simp [harith]

/-- C1: records of length 1..255 written by successful write_record calls in
    Recording state round-trip: reading the resulting file from the start in
    Reading state with a capacity strictly larger than every record's length
    returns, call by call, exactly each record's count and float values, and
    the call after the last record returns 0 with the state still Reading
    and the error untouched (end of stream, no error). -/
theorem c1_record_round_trip (recs : List (List Nat)) (cap idx : Nat)
    (p nm : String) (e : StorageError)
    (hrec : ∀ r ∈ recs, 1 ≤ r.length ∧ r.length ≤ 255 ∧ ∀ x ∈ r, x < 4294967296)
    (hcap : ∀ r ∈ recs, r.length < cap) (hcap2 : cap ≤ 255) :
    (writeSteps recs
        { state := StorageState.Recording, error := e, lastFileIndex := idx,
          currentRecordingName := nm, currentFile := some { path := p, pos := 0 } }
        (fsSingle p [])).1 = List.replicate recs.length true ∧
    readSteps (recs.length + 1)
        { state := StorageState.Reading, error := e, lastFileIndex := idx,
          currentRecordingName := "", currentFile := some { path := p, pos := 0 } }
        (writeSteps recs
          { state := StorageState.Recording, error := e, lastFileIndex := idx,
            currentRecordingName := nm, currentFile := some { path := p, pos := 0 } }
          (fsSingle p [])).2.2 cap =
      (recs.map (fun r => ((r.length : Int), r)) ++ [((0 : Int), ([] : List Nat))],
        { state := StorageState.Reading, error := e, lastFileIndex := idx,
          currentRecordingName := "",
          currentFile := some { path := p, pos := (encodeRecords recs).length } },
        (writeSteps recs
          { state := StorageState.Recording, error := e, lastFileIndex := idx,
            currentRecordingName := nm, currentFile := some { path := p, pos := 0 } }
          (fsSingle p [])).2.2) := by
  have hw := writeSteps_spec recs
    { state := StorageState.Recording, error := e, lastFileIndex := idx,
      currentRecordingName := nm, currentFile := some { path := p, pos := 0 } }
    (fsSingle p []) p 0 rfl rfl (fun r hr => ⟨(hrec r hr).1, (hrec r hr).2.1⟩)
  refine ⟨hw.1, ?_⟩
  have hcontent :
      (fsContent (writeSteps recs
        { state := StorageState.Recording, error := e, lastFileIndex := idx,
          currentRecordingName := nm, currentFile := some { path := p, pos := 0 } }
        (fsSingle p [])).2.2 p).drop 0 = encodeRecords recs := by
    rw [List.drop_zero, hw.2.2, fsContent_fsSingle, List.nil_append]
  have hr := readSteps_spec recs
    { state := StorageState.Reading, error := e, lastFileIndex := idx,
      currentRecordingName := "", currentFile := some { path := p, pos := 0 } }
    (writeSteps recs
      { state := StorageState.Recording, error := e, lastFileIndex := idx,
        currentRecordingName := nm, currentFile := some { path := p, pos := 0 } }
      (fsSingle p [])).2.2 p 0 cap rfl rfl hrec hcap hcap2 hcontent
  simpa using hr

/-- Witness for c1_record_round_trip: the two records [5, 6] and [7] written
    to file 00000 read back as (2, [5, 6]) then (1, [7]) then 0. -/
theorem c1_record_round_trip_witness :
    (writeSteps [[5, 6], [7]]
        { state := StorageState.Recording, error := StorageError.None, lastFileIndex := 0,
          currentRecordingName := "00000",
          currentFile := some { path := "/recordings/00000.rec", pos := 0 } }
        (fsSingle "/recordings/00000.rec" [])).1 = [true, true] ∧
    readSteps 3
        { state := StorageState.Reading, error := StorageError.None, lastFileIndex := 0,
          currentRecordingName := "",
          currentFile := some { path := "/recordings/00000.rec", pos := 0 } }
        (writeSteps [[5, 6], [7]]
          { state := StorageState.Recording, error := StorageError.None, lastFileIndex := 0,
            currentRecordingName := "00000",
            currentFile := some { path := "/recordings/00000.rec", pos := 0 } }
          (fsSingle "/recordings/00000.rec" [])).2.2 3 =
      ([((2 : Int), [5, 6]), ((1 : Int), [7]), ((0 : Int), ([] : List Nat))],
        { state := StorageState.Reading, error := StorageError.None, lastFileIndex := 0,
          currentRecordingName := "",
          currentFile := some { path := "/recordings/00000.rec", pos := 14 } },
        (writeSteps [[5, 6], [7]]
          { state := StorageState.Recording, error := StorageError.None, lastFileIndex := 0,
            currentRecordingName := "00000",
            currentFile := some { path := "/recordings/00000.rec", pos := 0 } }
          (fsSingle "/recordings/00000.rec" [])).2.2) := by
  have h := c1_record_round_trip [[5, 6], [7]] 3 0 "/recordings/00000.rec" "00000"
    StorageError.None (by decide) (by decide) (by decide)
  exact ⟨h.1.trans (by decide), h.2.trans (by decide)⟩

/-- C6: every state-checked operation invoked outside its expected
    precondition state (in particular from the Error state) returns its
    failure value and performs no medium access, leaving the whole store
    (state, error, lastFileIndex, currentRecordingName, currentFile) and
    the medium unchanged. -/
theorem c6_wrong_state_frame (s : Storage) (fs : FS) :
    (∀ dirOk, s.state ≠ StorageState.Idle →
      list_recordings s fs dirOk = { ret := [], store := s, fs := fs, med := 0 }) ∧
    (∀ name removeOk, s.state ≠ StorageState.Idle →
      remove_recording s fs name removeOk =
        { ret := false, store := s, fs := fs, med := 0 }) ∧
    (∀ openOk, s.state ≠ StorageState.Idle →
      create_new_recording s fs openOk =
        { ret := none, store := s, fs := fs, med := 0 }) ∧
    (∀ data len okLen okData, s.state ≠ StorageState.Recording →
      write_record s fs data len okLen okData =
        { ret := false, store := s, fs := fs, med := 0 }) ∧
    (∀ name openOk, s.state ≠ StorageState.Idle →
      open_recording s fs name openOk =
        { ret := false, store := s, fs := fs, med := 0 }) ∧
    (∀ cap, s.state ≠ StorageState.Reading →
      read_record s fs cap = { ret := (0, []), store := s, fs := fs, med := 0 }) ∧
    (s.state ≠ StorageState.Recording → s.state ≠ StorageState.Reading →
      close_recording s fs = { ret := false, store := s, fs := fs, med := 0 }) := by
  refine ⟨fun dirOk h => ?_, fun name removeOk h => ?_, fun openOk h => ?_,
    fun data len okLen okData h => ?_, fun name openOk h => ?_, fun cap h => ?_,
    fun h h' => ?_⟩
  · simp [list_recordings, h]
  · simp [remove_recording, h]
  · simp [create_new_recording, h]
  · simp [write_record, h]
  · simp [open_recording, h]
  · simp [read_record, h]
  · cases hstate : s.state <;> simp_all [close_recording]

/-- Witness for c6_wrong_state_frame: every operation invoked from the
    Error state is a frame-preserving failure with no medium access. -/
theorem c6_wrong_state_frame_witness :
    list_recordings errStore emptyFS true =
      { ret := [], store := errStore, fs := emptyFS, med := 0 } ∧
    remove_recording errStore emptyFS "00000" true =
      { ret := false, store := errStore, fs := emptyFS, med := 0 } ∧
    create_new_recording errStore emptyFS true =
      { ret := none, store := errStore, fs := emptyFS, med := 0 } ∧
    write_record errStore emptyFS [5] 1 true true =
      { ret := false, store := errStore, fs := emptyFS, med := 0 } ∧
    open_recording errStore emptyFS "00000" true =
      { ret := false, store := errStore, fs := emptyFS, med := 0 } ∧
    read_record errStore emptyFS 9 =
      { ret := (0, []), store := errStore, fs := emptyFS, med := 0 } ∧
    close_recording errStore emptyFS =
      { ret := false, store := errStore, fs := emptyFS, med := 0 } := by
  have h := c6_wrong_state_frame errStore emptyFS
  exact ⟨h.1 true (by decide), h.2.1 "00000" true (by decide), h.2.2.1 true (by decide),
    h.2.2.2.1 [5] 1 true true (by decide), h.2.2.2.2.1 "00000" true (by decide),
    h.2.2.2.2.2.1 9 (by decide), h.2.2.2.2.2.2 (by decide) (by decide)⟩

/-- Witness for c10_remove_missing_no_escalation: removing a missing name. -/
theorem c10_remove_missing_no_escalation_witness :
    remove_recording idleStore emptyFS "gone" true =
      { ret := false, store := idleStore, fs := emptyFS, med := 1 } :=
  (c10_remove_missing_no_escalation idleStore emptyFS "gone" true (by decide)).1 (by decide)

end ECG
